import Mathlib

/-!
# go-http-libsql: shallow embedding of `main.go`

The service is a single Go file: an HTTP router over a `posts` table, a
websocket endpoint whose connection is kept in a process-wide variable, and a
server-rendered HTML page.

The embedding makes the effects of the handlers explicit.

* The database (`db *sql.DB`) is an external collaborator.  It is a record of
  functions from the SQL text sent to the outcome the driver reports.
* The `http.ResponseWriter` is a record: the header map, the status line once
  it has been written, and the body chunks in the order written.
* The websocket handle (`conn *websocket.Conn`) is `Option Conn`; `none` is the
  Go `nil` pointer.
* Every call that leaves the process (store call, response write, websocket
  write) is appended to an event list, so that ordering can be stated.
* A Go run-time panic (nil dereference) ends the function: `Ret.panic`.
* Go `int` is 64 bits wide (amd64/arm64), so `int(x)` for an `int64` is `x`.
* `log`/`fmt.Println` output is not part of the observable state modelled.
* Handlers are modelled one request at a time (no interleaving of goroutines).
-/

namespace GoHttpLibsql

/-! ## Data model -/

/-- Go `type Post struct { ID int; Body string }`. -/
structure Post where
  ID : Int
  Body : String
  deriving DecidableEq, Repr

/-- Go `type WSPush struct { MessageType string; Post Post }`. -/
structure WSPush where
  MessageType : String
  Post : Post
  deriving DecidableEq, Repr

/-- The zero value of `Post` (what `var p Post` holds). -/
def Post.zero : Post := ⟨0, ""⟩

/-- JSON values, as produced by `encoding/json` (the text is not modelled,
the value it denotes is). -/
inductive JSON where
  | null
  | num (n : Int)
  | str (s : String)
  | arr (items : List JSON)
  | obj (fields : List (String × JSON))

/-- Encoding of a `Post` per its struct tags `json:"id"`, `json:"body"`. -/
def Post.toJSON (p : Post) : JSON :=
  .obj [("id", .num p.ID), ("body", .str p.Body)]

/-- Encoding of a `WSPush` per its struct tags. -/
def WSPush.toJSON (m : WSPush) : JSON :=
  .obj [("messageType", .str m.MessageType), ("post", m.Post.toJSON)]

/-- A Go slice value: `none` is the nil slice (`var ps []Post`), `some xs` a
non-nil slice with elements `xs`. -/
abbrev Slice (α : Type) := Option (List α)

/-- Go `append(s, x)`: the result is never nil. -/
def Slice.push {α : Type} (s : Slice α) (x : α) : Slice α :=
  some (s.getD [] ++ [x])

/-- Elements visited by `for _, p := range s` (none for the nil slice). -/
def Slice.elems {α : Type} (s : Slice α) : List α := s.getD []

/-- Encoding of a `[]Post` by `encoding/json`: a nil slice encodes as `null`,
any non-nil slice as an array. -/
def marshalPosts : Slice Post → JSON
  | none => .null
  | some ps => .arr (ps.map Post.toJSON)

/-! ## `strconv.Atoi` and `%d` -/

/-- Value of a decimal digit, `none` for any other character. -/
def digitVal (c : Char) : Option Nat :=
  if '0' ≤ c ∧ c ≤ '9' then some (c.toNat - 48) else none

/-- The digit loop of `strconv`: `n = n*10 + d`, failing on a non-digit. -/
def parseDigits : List Char → Nat → Option Nat
  | [], acc => some acc
  | c :: cs, acc =>
    match digitVal c with
    | none => none
    | some d => parseDigits cs (acc * 10 + d)

/-- Go `strconv.Atoi` for a 64-bit `int`: an optional sign `+` or `-`, then one
or more decimal digits, the value within `[-2^63, 2^63)`.  `none` stands for a
non-nil error (syntax or range). -/
def Atoi (s : String) : Option Int :=
  match s.data with
  | [] => none
  | c :: cs =>
    let ds := if c = '-' ∨ c = '+' then cs else c :: cs
    if ds = [] then none
    else
      match parseDigits ds 0 with
      | none => none
      | some n =>
        if c = '-' then
          if n ≤ 2 ^ 63 then some (-(n : Int)) else none
        else
          if n < 2 ^ 63 then some (n : Int) else none

/-- Go `%d` applied to an `int`. -/
def fmtInt : Int → String
  | .ofNat m => Nat.repr m
  | .negSucc m => "-" ++ Nat.repr (m + 1)

/-! ## The response writer -/

/-- One `Write` to the response body. -/
inductive Chunk where
  /-- Literal text. -/
  | text (s : String)
  /-- What `json.NewEncoder(w).Encode(v)` writes: the JSON text of `v`
  followed by a newline. -/
  | json (v : JSON)

/-- A header map. -/
abbrev Header := List (String × String)

/-- Go `Header.Del`. -/
def Header.del (h : Header) (k : String) : Header :=
  h.filter (fun kv => kv.1 != k)

/-- Go `Header.Set`. -/
def Header.set (h : Header) (k v : String) : Header :=
  Header.del h k ++ [(k, v)]

/-- State of an `http.ResponseWriter`. -/
structure ResponseWriter where
  /-- The live header map (`w.Header()`). -/
  header : Header
  /-- The status code sent, `none` while no header has been written. -/
  status : Option Nat
  /-- The header map as it was when the status line was written. -/
  sentHeader : Header
  /-- The body chunks in the order written. -/
  body : List Chunk

/-- A fresh response writer, as `net/http` hands it to a handler. -/
def ResponseWriter.fresh : ResponseWriter := ⟨[], none, [], []⟩

/-- Go `w.WriteHeader(code)`: only the first call has an effect. -/
def ResponseWriter.WriteHeader (w : ResponseWriter) (code : Nat) : ResponseWriter :=
  match w.status with
  | some _ => w
  | none => { w with status := some code, sentHeader := w.header }

/-- Go `w.Write(b)`: writes the header with status 200 first when none has been
written. -/
def ResponseWriter.Write (w : ResponseWriter) (c : Chunk) : ResponseWriter :=
  let w1 := w.WriteHeader 200
  { w1 with body := w1.body ++ [c] }

/-- Go `w.Header().Set(k, v)`. -/
def ResponseWriter.SetHeader (w : ResponseWriter) (k v : String) : ResponseWriter :=
  { w with header := Header.set w.header k v }

/-! ## Effects -/

/-- A websocket connection (the identity of a `*websocket.Conn`). -/
abbrev Conn := Nat

/-- Calls that leave the process, in program order.  A websocket event is the
call itself (`c.WriteJSON(v)`, ...); the source discards its error result. -/
inductive Event where
  | dbQuery (sql : String)
  | dbQueryRow (sql : String)
  | dbExec (sql : String)
  | rowsClose
  | httpError (msg : String) (code : Nat)
  | respWriteHeader (code : Nat)
  | respWrite (c : Chunk)
  | wsWriteJSON (c : Conn) (v : JSON)
  | wsWriteMessage (c : Conn) (mt : Nat) (data : String)
  | wsClose (c : Conn)

/-- The event is a call on the store. -/
def Event.isStoreOp : Event → Bool
  | .dbQuery _ => true
  | .dbQueryRow _ => true
  | .dbExec _ => true
  | _ => false

/-- The event writes a frame to a websocket connection. -/
def Event.isWsWrite : Event → Bool
  | .wsWriteJSON _ _ => true
  | .wsWriteMessage _ _ _ => true
  | _ => false

/-- State threaded through one handler call. -/
structure St where
  w : ResponseWriter
  events : List Event

/-- State at handler entry. -/
def St.init : St := ⟨ResponseWriter.fresh, []⟩

/-- Result of a Go function call: a normal return with value, or a run-time
panic that unwinds the handler.  The state at a panic holds what had been
written until then; what `net/http` still delivers of it is not modelled. -/
inductive Ret (α : Type) where
  | ok (s : St) (v : α)
  | panic (s : St)

/-- State at the end of the call. -/
def Ret.st {α : Type} : Ret α → St
  | .ok s _ => s
  | .panic s => s

/-- The call ended in a panic. -/
def Ret.panicked {α : Type} : Ret α → Bool
  | .ok _ _ => false
  | .panic _ => true

/-- Go `http.Error(w, msg, code)`: sets the plain-text headers, writes the
status line and then `msg` followed by a newline. -/
def httpError (s : St) (msg : String) (code : Nat) : St :=
  let w0 := s.w
  let w1 := { w0 with header := Header.del w0.header "Content-Length" }
  let w2 := w1.SetHeader "Content-Type" "text/plain; charset=utf-8"
  let w3 := w2.SetHeader "X-Content-Type-Options" "nosniff"
  let w4 := w3.WriteHeader code
  let w5 := w4.Write (.text (msg ++ "\n"))
  ⟨w5, s.events ++ [.httpError msg code]⟩

/-- Go `json.NewEncoder(w).Encode(v)`. -/
def encodeTo (s : St) (v : JSON) : St :=
  ⟨s.w.Write (.json v), s.events ++ [.respWrite (.json v)]⟩

/-- Append an event. -/
def St.emit (s : St) (e : Event) : St := ⟨s.w, s.events ++ [e]⟩

/-! ## The store -/

/-- Outcome of a `Scan(&post.ID, &post.Body)`: the value `post` holds after
the call, and whether the call returned an error. -/
structure RowScan where
  post : Post
  err : Bool

/-- Outcome of `db.Query`. -/
inductive QueryResult where
  /-- `(nil, err)`. -/
  | error
  /-- A row set: the scans of its rows in order, and whether `rows.Err()`
  is non-nil after the iteration. -/
  | rows (scans : List RowScan) (iterErr : Bool)

/-- A `sql.Result`: each accessor returns a value and an error flag. -/
structure Result where
  LastInsertId : Int × Bool
  RowsAffected : Int × Bool

/-- The database handle `db`, by what it answers to a statement. -/
structure DB where
  Query : String → QueryResult
  /-- `db.QueryRow(sql).Scan(&post.ID, &post.Body)`. -/
  QueryRow : String → RowScan
  /-- `db.Exec(sql)`: `none` is `(nil, err)`. -/
  Exec : String → Option Result

/-! ## Requests and process-wide variables -/

/-- What reading and decoding the request body gives in `handlePostPosts`. -/
structure RequestBody where
  /-- The call `io.ReadAll(r.Body)` returned an error. -/
  readErr : Bool
  /-- The call `json.Unmarshal(body, &p)` returned an error. -/
  parseErr : Bool
  /-- The value of `p` after `json.Unmarshal(body, &p)`. -/
  decoded : Post

/-- An HTTP request, as far as the handlers look at it. -/
structure Request where
  Method : String
  Path : String
  Body : RequestBody

/-- The package-level variables `db` and `conn`. -/
structure Globals where
  db : DB
  conn : Option Conn

/-! ## Repository functions and handlers -/

/-- The loop `for rows.Next() { ... }` of `getPosts`. -/
def scanRows : List RowScan → St → Slice Post → St × Slice Post
  | [], s, ps => (s, ps)
  | r :: rest, s, ps =>
    let s1 := if r.err then httpError s "Failed to execute query" 500 else s
    scanRows rest s1 (ps.push r.post)

/-- Go `getPosts`. -/
def getPosts (g : Globals) (s : St) : Ret (Slice Post) :=
  let s1 := s.emit (.dbQuery "SELECT * FROM posts")
  match g.db.Query "SELECT * FROM posts" with
  | .error =>
    -- the error is reported, then `rows` (nil) is used: `rows.Next()` panics
    .panic (httpError s1 "Failed to execute query" 500)
  | .rows scans _ =>
    let (s2, ps) := scanRows scans s1 none
    .ok (s2.emit .rowsClose) ps

/-- Go `handleGetPosts`. -/
def handleGetPosts (g : Globals) (_r : Request) (s : St) : Ret Unit :=
  match getPosts g s with
  | .panic s1 => .panic s1
  | .ok s1 ps =>
    let s2 : St := ⟨s1.w.SetHeader "Content-Type" "application/json", s1.events⟩
    .ok (encodeTo s2 (marshalPosts ps)) ()

/-- The statement text `handlePostPosts` builds. -/
def insertSQL (body : String) : String :=
  "INSERT INTO posts (body) VALUES (" ++ body ++ ")"

/-- Go `handlePostPosts`. -/
def handlePostPosts (g : Globals) (r : Request) (s : St) : Ret Unit :=
  let s1 := if r.Body.readErr then httpError s "Error reading request body" 400 else s
  let p : Post := r.Body.decoded
  let s2 := if r.Body.parseErr then httpError s1 "Error parsing request body" 400 else s1
  let s3 := s2.emit (.dbExec (insertSQL p.Body))
  match g.db.Exec (insertSQL p.Body) with
  | none =>
    -- the error is reported, then `result` (nil) is used: panic
    .panic (httpError s3 "Error creating post" 400)
  | some result =>
    let s4 := if result.LastInsertId.2 then httpError s3 "Error creating post" 400 else s3
    let p1 : Post := { p with ID := result.LastInsertId.1 }
    let res : WSPush := ⟨"new", p1⟩
    match g.conn with
    | none =>
      -- `conn.WriteJSON(res)` on the nil connection: panic
      .panic s4
    | some c =>
      let s5 := s4.emit (.wsWriteJSON c res.toJSON)
      let s6 : St := ⟨s5.w.SetHeader "Content-Type" "application/json", s5.events⟩
      .ok (encodeTo s6 p1.toJSON) ()

/-- The statement text `getPostById` builds. -/
def selectSQL (id : Int) : String :=
  "SELECT * FROM posts WHERE id = " ++ fmtInt id ++ " LIMIT 1"

/-- Go `getPostById`. -/
def getPostById (g : Globals) (id : Int) (s : St) : Ret Post :=
  let s1 := s.emit (.dbQueryRow (selectSQL id))
  let scan := g.db.QueryRow (selectSQL id)
  let s2 := if scan.err then httpError s1 "Failed to execute query" 500 else s1
  .ok s2 scan.post

/-- Go `handleGetPost`. -/
def handleGetPost (g : Globals) (_r : Request) (id : Int) (s : St) : Ret Unit :=
  match getPostById g id s with
  | .panic s1 => .panic s1
  | .ok s1 p =>
    let s2 : St := ⟨s1.w.SetHeader "Content-Type" "application/json", s1.events⟩
    .ok (encodeTo s2 p.toJSON) ()

/-- The statement text `deletePostById` builds. -/
def deleteSQL (id : Int) : String :=
  "DELETE FROM posts WHERE id = " ++ fmtInt id

/-- Go `deletePostById`. -/
def deletePostById (g : Globals) (id : Int) (s : St) : Ret Int :=
  let s1 := s.emit (.dbExec (deleteSQL id))
  match g.db.Exec (deleteSQL id) with
  | none =>
    -- the error is reported, then `result` (nil) is used: panic
    .panic (httpError s1 "Failed to execute query" 500)
  | some result =>
    let s2 := if result.RowsAffected.2 then httpError s1 "Failed to execute query" 500 else s1
    .ok s2 result.RowsAffected.1

/-- Go `handleDeletePost`. -/
def handleDeletePost (g : Globals) (_r : Request) (id : Int) (s : St) : Ret Unit :=
  match deletePostById g id s with
  | .panic s1 => .panic s1
  | .ok s1 isDeleted =>
    if isDeleted = 0 then
      .ok (httpError s1 "Post not found" 404) ()
    else
      .ok ⟨s1.w.WriteHeader 200, s1.events ++ [.respWriteHeader 200]⟩ ()

/-- Go `postsHandler`. -/
def postsHandler (g : Globals) (r : Request) (s : St) : Ret Unit :=
  if r.Method = "GET" then handleGetPosts g r s
  else if r.Method = "POST" then handlePostPosts g r s
  else .ok (httpError s "Method not allowed" 405) ()

/-- Go `postHandler`.  The route is `/posts/`, so the path starts with these
seven bytes; a shorter path would make the slice expression panic. -/
def postHandler (g : Globals) (r : Request) (s : St) : Ret Unit :=
  if r.Path.utf8ByteSize < 7 then .panic s
  else
    match Atoi (r.Path.drop 7) with
    | none => .ok (httpError s "Invalid Post ID" 400) ()
    | some id =>
      if r.Method = "GET" then handleGetPost g r id s
      else if r.Method = "DELETE" then handleDeletePost g r id s
      else .ok (httpError s "Method not allowed" 405) ()

/-! ## The page -/

/-- One list item: `fmt.Sprintf` of `<li>{"id":%d,"body":%s}</li>`. -/
def postItem (p : Post) : String :=
  "<li>\x7b\"id\":" ++ fmtInt p.ID ++ ",\"body\":" ++ p.Body ++ "\x7d</li>"

/-- The loop `for _, p := range postsResult { postsString += ... }`. -/
def postsMarkup (ps : List Post) : String :=
  ps.foldl (fun acc p => acc ++ postItem p) ""

/-- The page template up to the `%s`. -/
def pageHead : String :=
  "\n" ++
  "\t<html>\n" ++
  "\t<head>\n" ++
  "\t<style>\n" ++
  "\t* \x7b\n" ++
  "\t\tfont-family: monospace;\n" ++
  "\t\x7d\n" ++
  "\t</style>\n" ++
  "\t</head>\n" ++
  "\t<body>\n" ++
  "\t<button id=\"pingSocket\" onclick=\"pingSocket\">Socket Ping</button>\n" ++
  "\n" ++
  "\t<button id=\"createPost\">Create Post</button>\n" ++
  "\t<ul id=\"posts\">\n" ++
  "\t\t"

/-- The page template after the `%s`. -/
def pageTail : String :=
  "\n" ++
  "\t</ul>\n" ++
  "\t<script>\n" ++
  "\t\tlet items = document.getElementById(\"posts\");\n" ++
  "\n" ++
  "\t\tvar socket = new WebSocket(\"ws://localhost:8080/socket\");\n" ++
  "\n" ++
  "\t\tsocket.onopen = function () \x7b\n" ++
  "\t\t  console.log(\"Status: Connected\");\n" ++
  "\t\t\x7d;\n" ++
  "\t\n" ++
  "\t\tsocket.onmessage = function (e) \x7b\n" ++
  "\t\t  console.log(\"Server: \" + e.data);\n" ++
  "\n" ++
  "\t\t  try \x7b\n" ++
  "\t\t\tconst response = JSON.parse(e.data)\n" ++
  "\n" ++
  "\t\t\thandleWsResponses(response)\n" ++
  "\n" ++
  "\t\t  \x7d catch (err) \x7b\n" ++
  "\t\t\tconsole.error(\"not json\", err)\n" ++
  "\t\t  \x7d\n" ++
  "\t\t\x7d;\n" ++
  "\n" ++
  "\t\tfunction handleWsResponses(message)\x7b\n" ++
  "\t\t\tif(message.messageType === \"new\")\x7b\n" ++
  "\t\t\t\titems.innerHTML += '<li>' + JSON.stringify(message.post) + '</li>'\n" ++
  "\t\t\t\x7d\n" ++
  "\t\t\x7d\n" ++
  "\t\tfunction pingSocket() \x7b\n" ++
  "\t\t\tconsole.log(\"is socket ready?\", socket)\n" ++
  "\t\t\tif(!socket)\x7b\n" ++
  "\t\t\t\tconsole.log(\"not connected to socket server\")\n" ++
  "\t\t\t\treturn\n" ++
  "\t\t\t\x7d\n" ++
  "\t\t\tsocket.send(\"ping\")\t\n" ++
  "\t\t\x7d\n" ++
  "\n" ++
  "\t\tfunction createPostHandler()\x7b\n" ++
  "\t\t\tfetch(\"/posts\", \x7b\n" ++
  "\t\t\t\tmethod: \"POST\",\n" ++
  "\t\t\t\tbody: JSON.stringify(\x7bbody: Math.random().toString()\x7d)\n" ++
  "\t\t\t\x7d).then((res) => res.json()).then(data => \x7b\n" ++
  "\t\t\t\tconsole.log(data)\n" ++
  "\n" ++
  "\t\t\t\titems.innerHTML += '<li>' + JSON.stringify(data) + '</li>'\n" ++
  "\t\t\t\x7d).catch(err => \x7b\n" ++
  "\t\t\t\tconsole.error(err)\n" ++
  "\t\t\t\x7d)\n" ++
  "\t\t\x7d\n" ++
  "\t\t\n" ++
  "\t\tdocument.getElementById(\"createPost\").addEventListener(\"click\", createPostHandler);\n" ++
  "\t\tdocument.getElementById(\"pingSocket\").addEventListener(\"click\", pingSocket);\n" ++
  "\n" ++
  "\t</script>\n" ++
  "\t</body>\n" ++
  "\t</html>\n" ++
  "\t"

/-- Go `handleHtml`. -/
def handleHtml (g : Globals) (_r : Request) (s : St) : Ret Unit :=
  match getPosts g s with
  | .panic s1 => .panic s1
  | .ok s1 postsResult =>
    let postsString := postsMarkup postsResult.elems
    let str := pageHead ++ postsString ++ pageTail
    let w1 := s1.w.SetHeader "Content-Type" "text/html"
    .ok ⟨w1.Write (.text str), s1.events ++ [.respWrite (.text str)]⟩ ()

/-! ## The websocket endpoint -/

/-- Outcome of `upgrader.Upgrade(w, r, nil)`. -/
inductive UpgradeResult where
  /-- Handshake done: `(c, nil)`. -/
  | ok (c : Conn)
  /-- Handshake refused: `(nil, err)`.  When the library could still answer
  over HTTP it has called `http.Error(w, text, status)`: `reply` holds
  `(status, text)`. -/
  | fail (reply : Option (Nat × String))

/-- A frame read by `conn.ReadMessage()`. -/
structure Frame where
  mt : Nat
  data : String

/-- The read loop: every frame read is answered with the fixed text; the loop
ends when `ReadMessage` returns an error, here after the frames listed. -/
def readLoop (c : Conn) : List Frame → St → St
  | [], s => s
  | f :: fs, s => readLoop c fs (s.emit (.wsWriteMessage c f.mt "My message from the server, clown"))

/-- Go `socketHandler`.  Returns the package-level variables after the call:
the statement `conn, err = upgrader.Upgrade(w, r, nil)` assigns the first
result of `Upgrade` to `conn` before `err` is looked at. -/
def socketHandler (g : Globals) (up : UpgradeResult) (inbound : List Frame) (s : St) :
    Globals × Ret Unit :=
  match up with
  | .fail reply =>
    let s1 := match reply with
      | some (status, text) => httpError s text status
      | none => s
    ({ g with conn := none }, .ok s1 ())
  | .ok c =>
    let s1 := readLoop c inbound s
    ({ g with conn := some c }, .ok (s1.emit (.wsClose c)) ())

/-! ## Sample stores used to instantiate the theorems -/

/-- A store on which every statement succeeds: no rows, insert id 7, one row
affected, and a row `(3, "hi")` for every lookup. -/
def okDB : DB :=
  ⟨fun _ => .rows [] false, fun _ => ⟨⟨3, "hi"⟩, false⟩, fun _ => some ⟨(7, false), (1, false)⟩⟩

/-- A store on which deletes affect no row and lookups find no row. -/
def emptyDB : DB :=
  ⟨fun _ => .rows [] false, fun _ => ⟨Post.zero, true⟩, fun _ => some ⟨(0, false), (0, false)⟩⟩

/-- A store holding one post whose body is `<script>`. -/
def scriptDB : DB :=
  ⟨fun _ => .rows [⟨⟨1, "<script>"⟩, false⟩] false, fun _ => ⟨⟨1, "<script>"⟩, false⟩,
    fun _ => some ⟨(1, false), (1, false)⟩⟩

/-- A store on which the delete runs but `RowsAffected` returns an error. -/
def rowsErrDB : DB :=
  ⟨fun _ => .rows [] false, fun _ => ⟨Post.zero, true⟩, fun _ => some ⟨(0, false), (0, true)⟩⟩

/-- A well-formed request body carrying `p`. -/
def goodBody (p : Post) : RequestBody := ⟨false, false, p⟩

/-- A request body that is not JSON: `p` keeps its zero value. -/
def badBody : RequestBody := ⟨false, true, Post.zero⟩

/-- The SQL texts of the store calls among the events, in order. -/
def storeSQL : List Event → List String
  | [] => []
  | .dbQuery q :: es => q :: storeSQL es
  | .dbQueryRow q :: es => q :: storeSQL es
  | .dbExec q :: es => q :: storeSQL es
  | _ :: es => storeSQL es

/-! ## Helper lemmas -/

theorem posts_path_drop (seg : String) : ("/posts/" ++ seg).drop 7 = seg := by
  rw [String.drop_eq]; rfl

theorem posts_path_size (seg : String) : ¬ ("/posts/" ++ seg).utf8ByteSize < 7 := by
  have h : "/posts/" ++ seg = ⟨"/posts/".data ++ seg.data⟩ := rfl
  rw [h, String.utf8ByteSize_mk, String.utf8Len_append]
  have h7 : String.utf8Len "/posts/".data = 7 := by decide
  omega

/-- On a route path `/posts/` followed by `seg`, `postHandler` parses `seg`
and dispatches on the method. -/
theorem postHandler_route (g : Globals) (method seg : String) (body : RequestBody) (s : St) :
    postHandler g ⟨method, "/posts/" ++ seg, body⟩ s =
      match Atoi seg with
      | none => .ok (httpError s "Invalid Post ID" 400) ()
      | some id =>
        if method = "GET" then handleGetPost g ⟨method, "/posts/" ++ seg, body⟩ id s
        else if method = "DELETE" then handleDeletePost g ⟨method, "/posts/" ++ seg, body⟩ id s
        else .ok (httpError s "Method not allowed" 405) () := by
  unfold postHandler
  dsimp only
  rw [if_neg (posts_path_size seg), posts_path_drop]

/-- Two insert statements are equal only for equal bodies. -/
theorem insertSQL_injective (b1 b2 : String) (h : insertSQL b1 = insertSQL b2) : b1 = b2 := by
  unfold insertSQL at h
  have hd := congrArg String.data h
  simp only [String.data_append] at hd
  have h1 := List.append_cancel_right hd
  have h2 := List.append_cancel_left h1
  exact String.ext h2

/-- The accumulated markup starts with what was accumulated before. -/
theorem markup_foldl_starts (ps : List Post) (init : String) :
    init.data <+: (ps.foldl (fun acc p => acc ++ postItem p) init).data := by
  induction ps generalizing init with
  | nil => exact List.prefix_refl _
  | cons q qs ih =>
    refine List.IsPrefix.trans ?_ (ih (init ++ postItem q))
    rw [String.data_append]
    exact List.prefix_append _ _

/-- The body of a post occurs verbatim in its list item. -/
theorem body_infix_postItem (p : Post) : p.Body.data <:+: (postItem p).data := by
  unfold postItem
  simp only [String.data_append]
  exact ⟨"<li>\x7b\"id\":".data ++ (fmtInt p.ID).data ++ ",\"body\":".data, "\x7d</li>".data,
    by simp only [List.append_assoc]⟩

/-- The body of every post occurs verbatim in the accumulated markup. -/
theorem body_infix_foldl (ps : List Post) (init : String) (p : Post) (hp : p ∈ ps) :
    p.Body.data <:+: (ps.foldl (fun acc p => acc ++ postItem p) init).data := by
  induction ps generalizing init with
  | nil => cases hp
  | cons q qs ih =>
    rcases List.mem_cons.mp hp with h | h
    · subst h
      have h1 : p.Body.data <:+: (init ++ postItem p).data := by
        rw [String.data_append]
        exact List.IsInfix.trans (body_infix_postItem p) (List.suffix_append _ _).isInfix
      exact List.IsInfix.trans h1 (markup_foldl_starts qs (init ++ postItem p)).isInfix
    · exact ih (init ++ postItem q) h

/-- The slice built by the row loop holds the scanned posts in order. -/
theorem scanRows_elems (scans : List RowScan) (s : St) (ps : Slice Post) :
    (scanRows scans s ps).2.elems = ps.elems ++ scans.map (fun sc => sc.post) := by
  induction scans generalizing s ps with
  | nil => simp [scanRows]
  | cons sc rest ih =>
    rw [scanRows, ih]
    simp [Slice.push, Slice.elems]

/-- The digit loop reads back a digit character. -/
theorem digitVal_digitChar (d : Nat) (h : d < 10) : digitVal (Nat.digitChar d) = some d := by
  interval_cases d <;> rfl

theorem parseDigits_append (l1 l2 : List Char) (acc : Nat) :
    parseDigits (l1 ++ l2) acc = (parseDigits l1 acc).bind (parseDigits l2) := by
  induction l1 generalizing acc with
  | nil => rfl
  | cons c cs ih =>
    simp only [List.cons_append, parseDigits]
    cases digitVal c with
    | none => rfl
    | some d => exact ih _

/-- The decimal digits `%d` prints are put in front of the accumulator and
read back by the digit loop as the number printed. -/
theorem toDigitsCore_parse (fuel : Nat) : ∀ (n : Nat) (ds : List Char), n < fuel →
    ∃ pre, Nat.toDigitsCore 10 fuel n ds = pre ++ ds ∧ pre ≠ [] ∧
      ∀ acc, parseDigits pre acc = some (acc * 10 ^ pre.length + n) := by
  induction fuel with
  | zero => intro n ds h; omega
  | succ f ih =>
    intro n ds h
    unfold Nat.toDigitsCore
    by_cases h0 : n / 10 = 0
    · refine ⟨[Nat.digitChar (n % 10)], by simp [h0], by simp, ?_⟩
      intro acc
      have hlt : n % 10 < 10 := Nat.mod_lt _ (by decide)
      simp only [parseDigits, digitVal_digitChar _ hlt, List.length_singleton]
      congr 1
      omega
    · have hlt : n / 10 < f := by omega
      obtain ⟨pre, hpre, _, hval⟩ := ih (n / 10) (Nat.digitChar (n % 10) :: ds) hlt
      refine ⟨pre ++ [Nat.digitChar (n % 10)], by simp [h0, hpre], by simp, ?_⟩
      intro acc
      have hm : n % 10 < 10 := Nat.mod_lt _ (by decide)
      rw [parseDigits_append, hval acc]
      simp only [Option.bind, parseDigits, digitVal_digitChar _ hm, List.length_append,
        List.length_singleton]
      congr 1
      rw [pow_succ]
      nlinarith [Nat.div_add_mod n 10]

/-- The digits of `Nat.repr n` are read back as `n`. -/
theorem parseDigits_repr (n : Nat) :
    (Nat.repr n).data ≠ [] ∧ parseDigits (Nat.repr n).data 0 = some n := by
  obtain ⟨pre, hpre, hne, hval⟩ := toDigitsCore_parse (n + 1) n [] (Nat.lt_succ_self n)
  have hd : (Nat.repr n).data = pre := by
    simp only [Nat.repr, Nat.toDigits, List.asString, hpre, List.append_nil]
  rw [hd]
  exact ⟨hne, by simpa using hval 0⟩

/-- A negative `int` printed with `%d` is parsed back by `Atoi`. -/
theorem Atoi_fmtInt_neg (id : Int) (hneg : id < 0) (hlo : -(2 : Int) ^ 63 ≤ id) :
    Atoi (fmtInt id) = some id := by
  match id, hneg, hlo with
  | .negSucc m, _, hlo =>
    obtain ⟨hne, hval⟩ := parseDigits_repr (m + 1)
    have hd : (fmtInt (Int.negSucc m)).data = '-' :: (Nat.repr (m + 1)).data := rfl
    have hb : m + 1 ≤ 2 ^ 63 := by
      have := Int.negSucc_eq m
      omega
    unfold Atoi
    rw [hd]
    simp only [true_or, if_true, hne, if_false, hval, hb]
    rfl

theorem storeSQL_append (l1 l2 : List Event) :
    storeSQL (l1 ++ l2) = storeSQL l1 ++ storeSQL l2 := by
  induction l1 with
  | nil => rfl
  | cons e es ih => cases e <;> simp [storeSQL, ih]

/-- An error reply, conditional or not, adds no store call. -/
theorem storeSQL_httpError_if (b : Bool) (s : St) (msg : String) (code : Nat) :
    storeSQL (if b = true then httpError s msg code else s).events = storeSQL s.events := by
  cases b <;> simp [httpError, storeSQL_append, storeSQL]

theorem httpError_events (s : St) (msg : String) (code : Nat) :
    (httpError s msg code).events = s.events ++ [.httpError msg code] := rfl

theorem emit_events (s : St) (e : Event) : (s.emit e).events = s.events ++ [e] := rfl

theorem encodeTo_events (s : St) (v : JSON) :
    (encodeTo s v).events = s.events ++ [.respWrite (.json v)] := rfl

/-! ## Claims -/

/-- C2: for a request to `/posts/{id}` of any method whose `{id}` segment does
not parse as an integer, `postHandler` answers 400 ("Invalid Post ID") and
returns without any call on the store: the only event is that error reply. -/
theorem postHandler_invalid_id_400 (g : Globals) (method seg : String) (body : RequestBody)
    (h : Atoi seg = none) :
    (postHandler g ⟨method, "/posts/" ++ seg, body⟩ St.init).panicked = false ∧
    (postHandler g ⟨method, "/posts/" ++ seg, body⟩ St.init).st.w.status = some 400 ∧
    (postHandler g ⟨method, "/posts/" ++ seg, body⟩ St.init).st.events =
      [.httpError "Invalid Post ID" 400] ∧
    (postHandler g ⟨method, "/posts/" ++ seg, body⟩ St.init).st.events.filter
      Event.isStoreOp = [] ∧
    storeSQL (postHandler g ⟨method, "/posts/" ++ seg, body⟩ St.init).st.events = [] := by
  rw [postHandler_route, h]
  exact ⟨rfl, rfl, rfl, rfl, rfl⟩

/-- The theorem for C2 at `GET /posts/abc` and at `DELETE /posts/` (empty id). -/
theorem postHandler_invalid_id_400_witness :
    (Atoi "abc" = none ∧
      (postHandler ⟨okDB, none⟩ ⟨"GET", "/posts/" ++ "abc", badBody⟩ St.init).st.w.status
        = some 400) ∧
    (Atoi "" = none ∧
      storeSQL (postHandler ⟨okDB, none⟩ ⟨"DELETE", "/posts/" ++ "", badBody⟩
        St.init).st.events = []) :=
  ⟨⟨by decide, (postHandler_invalid_id_400 ⟨okDB, none⟩ "GET" "abc" badBody (by decide)).2.1⟩,
   ⟨by decide,
    (postHandler_invalid_id_400 ⟨okDB, none⟩ "DELETE" "" badBody (by decide)).2.2.2.2⟩⟩

/-- C3: for `DELETE /posts/{id}` with a valid id, when the delete succeeds and
reports `n` rows affected, the status is 404 exactly when `n = 0`; otherwise
the status is 200 and the body is empty. -/
theorem delete_404_iff_zero_rows (g : Globals) (seg : String) (body : RequestBody)
    (id n : Int) (lastId : Int × Bool)
    (hid : Atoi seg = some id)
    (hexec : g.db.Exec (deleteSQL id) = some ⟨lastId, (n, false)⟩) :
    (postHandler g ⟨"DELETE", "/posts/" ++ seg, body⟩ St.init).panicked = false ∧
    ((postHandler g ⟨"DELETE", "/posts/" ++ seg, body⟩ St.init).st.w.status = some 404
      ↔ n = 0) ∧
    (n ≠ 0 →
      (postHandler g ⟨"DELETE", "/posts/" ++ seg, body⟩ St.init).st.w.status = some 200 ∧
      (postHandler g ⟨"DELETE", "/posts/" ++ seg, body⟩ St.init).st.w.body = []) := by
  rw [postHandler_route, hid]
  have hm : ¬ ("DELETE" = "GET") := by decide
  simp only [hm, if_false, if_true]
  unfold handleDeletePost deletePostById
  simp only [hexec]
  by_cases hn : n = 0
  · subst hn
    simp [httpError, Ret.panicked, Ret.st, St.emit, St.init, ResponseWriter.fresh,
      ResponseWriter.WriteHeader, ResponseWriter.Write, ResponseWriter.SetHeader]
  · simp [hn, Ret.panicked, Ret.st, St.emit, St.init, ResponseWriter.fresh,
      ResponseWriter.WriteHeader]

/-- The theorem for C3 at `DELETE /posts/999999` on a store where the delete
affects no row: the status is 404. -/
theorem delete_404_iff_zero_rows_witness :
    Atoi "999999" = some 999999 ∧
    emptyDB.Exec (deleteSQL 999999) = some ⟨(0, false), (0, false)⟩ ∧
    (postHandler ⟨emptyDB, none⟩ ⟨"DELETE", "/posts/" ++ "999999", badBody⟩
      St.init).st.w.status = some 404 :=
  ⟨by decide, rfl,
   (delete_404_iff_zero_rows ⟨emptyDB, none⟩ "999999" badBody 999999 0 (0, false)
      (by decide) rfl).2.1.mpr rfl⟩

/-- C5: for a POST whose body decodes to body text `b` with any caller-supplied
id `cid`, whose insert succeeds with store-assigned id `n`, and with the
connection `c` held: exactly one frame is written, to `c`, namely the JSON of
`WSPush` with message type "new" and post `(n, b)`; the response is 200 with
content type `application/json` and the JSON of the post `(n, b)`.  Neither
depends on `cid`. -/
theorem post_broadcasts_once (db : DB) (c : Conn) (cid n : Int) (b : String)
    (rows : Int × Bool)
    (hexec : db.Exec (insertSQL b) = some ⟨(n, false), rows⟩) :
    (postsHandler ⟨db, some c⟩ ⟨"POST", "/posts", goodBody ⟨cid, b⟩⟩ St.init).panicked = false ∧
    (postsHandler ⟨db, some c⟩ ⟨"POST", "/posts", goodBody ⟨cid, b⟩⟩ St.init).st.events.filter
        Event.isWsWrite
      = [.wsWriteJSON c (WSPush.toJSON ⟨"new", ⟨n, b⟩⟩)] ∧
    (postsHandler ⟨db, some c⟩ ⟨"POST", "/posts", goodBody ⟨cid, b⟩⟩ St.init).st.w.status
      = some 200 ∧
    (postsHandler ⟨db, some c⟩ ⟨"POST", "/posts", goodBody ⟨cid, b⟩⟩ St.init).st.w.sentHeader
      = [("Content-Type", "application/json")] ∧
    (postsHandler ⟨db, some c⟩ ⟨"POST", "/posts", goodBody ⟨cid, b⟩⟩ St.init).st.w.body
      = [.json (Post.toJSON ⟨n, b⟩)] := by
  unfold postsHandler
  have hm : ¬ ("POST" = "GET") := by decide
  simp only [hm, if_false, if_true]
  unfold handlePostPosts
  simp [goodBody, hexec, Ret.panicked, Ret.st, St.emit, St.init, encodeTo,
    ResponseWriter.fresh, ResponseWriter.WriteHeader, ResponseWriter.Write,
    ResponseWriter.SetHeader, Header.set, Header.del, Event.isWsWrite, List.filter]

/-- The theorem for C5 at body `1`, caller-supplied id 42, store-assigned id 7,
connection 0. -/
theorem post_broadcasts_once_witness :
    okDB.Exec (insertSQL "1") = some ⟨(7, false), (1, false)⟩ ∧
    (postsHandler ⟨okDB, some 0⟩ ⟨"POST", "/posts", goodBody ⟨42, "1"⟩⟩ St.init).st.w.body
      = [.json (Post.toJSON ⟨7, "1"⟩)] :=
  ⟨rfl, (post_broadcasts_once okDB 0 42 7 "1" (1, false) rfl).2.2.2.2⟩

/-- C1 (defect in the code): with no websocket connection held (`conn` is nil),
a POST whose body parses and whose insert succeeds does not complete:
`conn.WriteJSON` dereferences the nil connection and the handler panics after
the insert was sent, before anything is written to the response. -/
theorem post_nil_conn_panics (db : DB) (p : Post) (result : Result)
    (hexec : db.Exec (insertSQL p.Body) = some result)
    (hid : result.LastInsertId.2 = false) :
    (postsHandler ⟨db, none⟩ ⟨"POST", "/posts", goodBody p⟩ St.init).panicked = true ∧
    (postsHandler ⟨db, none⟩ ⟨"POST", "/posts", goodBody p⟩ St.init).st.w.status = none ∧
    (postsHandler ⟨db, none⟩ ⟨"POST", "/posts", goodBody p⟩ St.init).st.w.body = [] ∧
    (postsHandler ⟨db, none⟩ ⟨"POST", "/posts", goodBody p⟩ St.init).st.events
      = [.dbExec (insertSQL p.Body)] := by
  unfold postsHandler
  have hm : ¬ ("POST" = "GET") := by decide
  simp only [hm, if_false, if_true]
  unfold handlePostPosts
  simp [goodBody, hexec, hid, Ret.panicked, Ret.st, St.emit, St.init, ResponseWriter.fresh]

/-- The theorem for C1 at body `1` on a store where the insert succeeds. -/
theorem post_nil_conn_panics_witness :
    okDB.Exec (insertSQL "1") = some ⟨(7, false), (1, false)⟩ ∧
    (postsHandler ⟨okDB, none⟩ ⟨"POST", "/posts", goodBody ⟨0, "1"⟩⟩ St.init).panicked = true ∧
    (postsHandler ⟨okDB, none⟩ ⟨"POST", "/posts", goodBody ⟨0, "1"⟩⟩ St.init).st.w.status
      = none :=
  ⟨rfl, (post_nil_conn_panics okDB ⟨0, "1"⟩ ⟨(7, false), (1, false)⟩ rfl rfl).1,
   (post_nil_conn_panics okDB ⟨0, "1"⟩ ⟨(7, false), (1, false)⟩ rfl rfl).2.1⟩

/-- C4 (defect in the code): for `GET /posts` when the query succeeds with zero
rows, the status is 200 but the body is the JSON value `null`, not the empty
array: `ps` is still the nil slice when it is encoded. -/
theorem get_posts_empty_is_null (g : Globals) (iterErr : Bool)
    (hq : g.db.Query "SELECT * FROM posts" = .rows [] iterErr) :
    (postsHandler g ⟨"GET", "/posts", badBody⟩ St.init).panicked = false ∧
    (postsHandler g ⟨"GET", "/posts", badBody⟩ St.init).st.w.status = some 200 ∧
    (postsHandler g ⟨"GET", "/posts", badBody⟩ St.init).st.w.body = [.json .null] ∧
    (postsHandler g ⟨"GET", "/posts", badBody⟩ St.init).st.w.body ≠ [.json (.arr [])] := by
  unfold postsHandler
  simp only [if_true]
  unfold handleGetPosts getPosts
  simp [hq, scanRows, marshalPosts, Ret.panicked, Ret.st, St.emit, St.init, encodeTo,
    ResponseWriter.fresh, ResponseWriter.WriteHeader, ResponseWriter.Write,
    ResponseWriter.SetHeader]

/-- The theorem for C4 on a store whose table is empty. -/
theorem get_posts_empty_is_null_witness :
    emptyDB.Query "SELECT * FROM posts" = .rows [] false ∧
    (postsHandler ⟨emptyDB, none⟩ ⟨"GET", "/posts", badBody⟩ St.init).st.w.body
      = [.json .null] :=
  ⟨rfl, (get_posts_empty_is_null ⟨emptyDB, none⟩ false rfl).2.2.1⟩

/-- C10 (defect in the code): a call to `socketHandler` whose handshake fails
assigns the nil result of `Upgrade` to `conn` before the error check.  A
connection held before the call is dropped from the handle (an absent handle
stays absent), and the next successful POST reaches no websocket client: it
panics on the nil handle as in C1. -/
theorem socketHandler_failed_upgrade_clears_conn (db : DB) (c : Conn)
    (reply : Option (Nat × String)) (inbound : List Frame) :
    (socketHandler ⟨db, some c⟩ (.fail reply) inbound St.init).1.conn = none ∧
    (socketHandler ⟨db, some c⟩ (.fail reply) inbound St.init).1.conn ≠ some c ∧
    (socketHandler ⟨db, none⟩ (.fail reply) inbound St.init).1.conn = none ∧
    (socketHandler ⟨db, some c⟩ (.fail reply) inbound St.init).1.db = db ∧
    (postsHandler (socketHandler ⟨okDB, some c⟩ (.fail reply) inbound St.init).1
        ⟨"POST", "/posts", goodBody ⟨0, "1"⟩⟩ St.init).panicked = true ∧
    (postsHandler (socketHandler ⟨okDB, some c⟩ (.fail reply) inbound St.init).1
        ⟨"POST", "/posts", goodBody ⟨0, "1"⟩⟩ St.init).st.events.filter Event.isWsWrite
      = [] := by
  have hg : (socketHandler ⟨okDB, some c⟩ (.fail reply) inbound St.init).1
      = ⟨okDB, none⟩ := rfl
  rw [hg]
  exact ⟨rfl, by simp [socketHandler], rfl, rfl, rfl, rfl⟩

/-- C6, refuted as stated: the bodies `1` and `2` make `handlePostPosts` send
two different statement texts, and a body carrying SQL changes the statement. -/
theorem insert_sql_varies_with_body :
    storeSQL (postsHandler ⟨okDB, some 0⟩ ⟨"POST", "/posts", goodBody ⟨0, "1"⟩⟩
      St.init).st.events = ["INSERT INTO posts (body) VALUES (1)"] ∧
    storeSQL (postsHandler ⟨okDB, some 0⟩ ⟨"POST", "/posts", goodBody ⟨0, "2"⟩⟩
      St.init).st.events = ["INSERT INTO posts (body) VALUES (2)"] ∧
    storeSQL (postsHandler ⟨okDB, some 0⟩ ⟨"POST", "/posts", goodBody ⟨0, "1"⟩⟩
      St.init).st.events ≠
    storeSQL (postsHandler ⟨okDB, some 0⟩ ⟨"POST", "/posts", goodBody ⟨0, "2"⟩⟩
      St.init).st.events ∧
    storeSQL (postsHandler ⟨okDB, some 0⟩
      ⟨"POST", "/posts", goodBody ⟨0, "'x'); DELETE FROM posts; --"⟩⟩ St.init).st.events
      = ["INSERT INTO posts (body) VALUES ('x'); DELETE FROM posts; --)"] := by
  refine ⟨rfl, rfl, ?_, rfl⟩
  decide

/-- C6 as amended: the only statement `handlePostPosts` sends is the text
`INSERT INTO posts (body) VALUES (` followed by the decoded body verbatim and
`)`; no parameter is bound, and two bodies give the same statement text
exactly when they are equal. -/
theorem insert_sql_interpolates_body (g : Globals) (method path : String) (rb : RequestBody)
    (b1 b2 : String) :
    storeSQL (handlePostPosts g ⟨method, path, rb⟩ St.init).st.events
      = ["INSERT INTO posts (body) VALUES (" ++ rb.decoded.Body ++ ")"] ∧
    (insertSQL b1 = insertSQL b2 ↔ b1 = b2) := by
  refine ⟨?_, ⟨insertSQL_injective b1 b2, fun h => by rw [h]⟩⟩
  change storeSQL _ = [insertSQL rb.decoded.Body]
  unfold handlePostPosts
  cases hex : g.db.Exec (insertSQL rb.decoded.Body) with
  | none =>
    simp only [hex, Ret.st, httpError_events, emit_events, storeSQL_append,
      storeSQL_httpError_if, storeSQL, St.init, List.nil_append, List.append_nil]
  | some result =>
    cases hc : g.conn with
    | none =>
      simp only [hex, hc, Ret.st, emit_events, storeSQL_append,
        storeSQL_httpError_if, storeSQL, St.init, List.nil_append, List.append_nil]
    | some c =>
      simp only [hex, hc, Ret.st, emit_events, encodeTo_events, storeSQL_append,
        storeSQL_httpError_if, storeSQL, St.init, List.nil_append, List.append_nil]

/-- C7, refuted as stated: for a stored post with body `<script>` the fragment
placed in the list is `<li>{"id":1,"body":<script>}</li>`, which contains
`<script>` verbatim, and `handleHtml` writes it into the page. -/
theorem html_emits_script_verbatim :
    postsMarkup [⟨1, "<script>"⟩] = "<li>\x7b\"id\":1,\"body\":<script>\x7d</li>" ∧
    "<script>".data <:+: (postsMarkup [⟨1, "<script>"⟩]).data ∧
    (handleHtml ⟨scriptDB, none⟩ ⟨"GET", "/", badBody⟩ St.init).st.w.body
      = [.text (pageHead ++ "<li>\x7b\"id\":1,\"body\":<script>\x7d</li>" ++ pageTail)] := by
  refine ⟨by decide, ?_, rfl⟩
  exact body_infix_foldl [⟨1, "<script>"⟩] "" ⟨1, "<script>"⟩ (List.mem_singleton.mpr rfl)

/-- C7 as amended: for every list of rows the store returns, the page written
by `handleHtml` is the template with the fragment `postsMarkup` in place of
`%s`, and the body of every post occurs verbatim (unescaped) in that fragment;
so a body containing `<script>` is emitted as it is. -/
theorem html_bodies_verbatim (g : Globals) (r : Request) (scans : List RowScan)
    (iterErr : Bool)
    (hq : g.db.Query "SELECT * FROM posts" = .rows scans iterErr) :
    (handleHtml g r St.init).panicked = false ∧
    (∃ pre, (handleHtml g r St.init).st.w.body =
      pre ++ [.text (pageHead ++ postsMarkup (scans.map (fun sc => sc.post)) ++ pageTail)]) ∧
    ∀ sc ∈ scans,
      sc.post.Body.data <:+: (postsMarkup (scans.map (fun sc => sc.post))).data := by
  refine ⟨?_, ?_, ?_⟩
  · unfold handleHtml getPosts
    simp only [hq]
    rfl
  · unfold handleHtml getPosts
    simp only [hq]
    have he := scanRows_elems scans (St.init.emit (.dbQuery "SELECT * FROM posts")) none
    simp only [Slice.elems, Option.getD_none, List.nil_append] at he
    simp only [Ret.st, ResponseWriter.Write, ResponseWriter.SetHeader, Slice.elems, he]
    exact ⟨_, rfl⟩
  · intro sc hsc
    exact body_infix_foldl _ "" sc.post (List.mem_map.mpr ⟨sc, hsc, rfl⟩)

/-- The theorem for C7 (amended) on the store holding the post `<script>`. -/
theorem html_bodies_verbatim_witness :
    scriptDB.Query "SELECT * FROM posts" = .rows [⟨⟨1, "<script>"⟩, false⟩] false ∧
    "<script>".data <:+: (postsMarkup [⟨1, "<script>"⟩]).data :=
  ⟨rfl, (html_bodies_verbatim ⟨scriptDB, none⟩ ⟨"GET", "/", badBody⟩
      [⟨⟨1, "<script>"⟩, false⟩] false rfl).2.2 ⟨⟨1, "<script>"⟩, false⟩
      (List.mem_singleton.mpr rfl)⟩

/-- C8 (defect in the code): a failure is not the end of the operation.
When the lookup of `handleGetPost` fails, the 500 reply is followed by a JSON
body written to the same response.  When the body of a POST does not parse,
the 400 reply is followed by the insert (and, on the sample store with a
connection held, by a websocket frame and a JSON body).  When `RowsAffected`
fails in a delete, the 500 reply is followed by a second error reply. -/
theorem failure_not_abandoned (g : Globals) (r : Request) (id : Int)
    (hrow : (g.db.QueryRow (selectSQL id)).err = true) :
    ((handleGetPost g r id St.init).st.events =
      [.dbQueryRow (selectSQL id), .httpError "Failed to execute query" 500,
       .respWrite (.json (g.db.QueryRow (selectSQL id)).post.toJSON)] ∧
     (handleGetPost g r id St.init).st.w.status = some 500 ∧
     (handleGetPost g r id St.init).st.w.body =
      [.text "Failed to execute query\n",
       .json (g.db.QueryRow (selectSQL id)).post.toJSON]) ∧
    ((handlePostPosts g ⟨"POST", "/posts", badBody⟩ St.init).st.events.take 2 =
      [.httpError "Error parsing request body" 400, .dbExec (insertSQL "")] ∧
     (handlePostPosts ⟨okDB, some 0⟩ ⟨"POST", "/posts", badBody⟩ St.init).st.events =
      [.httpError "Error parsing request body" 400,
       .dbExec "INSERT INTO posts (body) VALUES ()",
       .wsWriteJSON 0 (WSPush.toJSON ⟨"new", ⟨7, ""⟩⟩),
       .respWrite (.json (Post.toJSON ⟨7, ""⟩))] ∧
     (handlePostPosts ⟨okDB, some 0⟩ ⟨"POST", "/posts", badBody⟩ St.init).st.w.body =
      [.text "Error parsing request body\n", .json (Post.toJSON ⟨7, ""⟩)]) ∧
    ((handleDeletePost ⟨rowsErrDB, none⟩ r 5 St.init).st.events =
      [.dbExec "DELETE FROM posts WHERE id = 5",
       .httpError "Failed to execute query" 500, .httpError "Post not found" 404] ∧
     (handleDeletePost ⟨rowsErrDB, none⟩ r 5 St.init).st.w.body =
      [.text "Failed to execute query\n", .text "Post not found\n"]) := by
  refine ⟨⟨?_, ?_, ?_⟩, ⟨?_, rfl, rfl⟩, ⟨rfl, rfl⟩⟩
  · simp [handleGetPost, getPostById, hrow, Ret.st, encodeTo_events, httpError_events,
      emit_events, St.init]
  · simp [handleGetPost, getPostById, hrow, Ret.st, encodeTo, httpError, St.emit, St.init,
      ResponseWriter.fresh, ResponseWriter.WriteHeader, ResponseWriter.Write,
      ResponseWriter.SetHeader]
  · simp [handleGetPost, getPostById, hrow, Ret.st, encodeTo, httpError, St.emit, St.init,
      ResponseWriter.fresh, ResponseWriter.WriteHeader, ResponseWriter.Write,
      ResponseWriter.SetHeader]
  · simp only [handlePostPosts, badBody, Post.zero, if_true, Bool.false_eq_true, if_false]
    split
    · rfl
    · split <;> split <;> rfl

/-- The theorem for C8 at `GET /posts/5` on a store where no row matches. -/
theorem failure_not_abandoned_witness :
    (emptyDB.QueryRow (selectSQL 5)).err = true ∧
    (handleGetPost ⟨emptyDB, none⟩ ⟨"GET", "/posts/5", badBody⟩ 5 St.init).st.w.body =
      [.text "Failed to execute query\n", .json (Post.toJSON ⟨0, ""⟩)] :=
  ⟨rfl, (failure_not_abandoned ⟨emptyDB, none⟩ ⟨"GET", "/posts/5", badBody⟩ 5 rfl).1.2.2⟩

/-- C9, refuted as stated: a request for the post with id segment `-1` is not
answered 400; the id is parsed as minus one and the select, or the delete, for
that id is sent to the store. -/
theorem negative_id_reaches_store :
    Atoi "-1" = some (-1) ∧
    storeSQL (postHandler ⟨okDB, none⟩ ⟨"GET", "/posts/-1", badBody⟩ St.init).st.events
      = ["SELECT * FROM posts WHERE id = -1 LIMIT 1"] ∧
    (postHandler ⟨okDB, none⟩ ⟨"GET", "/posts/-1", badBody⟩ St.init).st.w.status
      = some 200 ∧
    storeSQL (postHandler ⟨okDB, none⟩ ⟨"DELETE", "/posts/-1", badBody⟩ St.init).st.events
      = ["DELETE FROM posts WHERE id = -1"] ∧
    (postHandler ⟨okDB, none⟩ ⟨"DELETE", "/posts/-1", badBody⟩ St.init).st.w.status
      = some 200 := by
  refine ⟨by decide, ?_, ?_, ?_, ?_⟩ <;>
    (rw [show "/posts/-1" = "/posts/" ++ "-1" from rfl, postHandler_route,
      show Atoi "-1" = some (-1) from by decide]; rfl)

/-- C9 as amended: a segment that `Atoi` parses as a negative id is accepted
like any other id.  The reply is never 400; `GET` sends the select and `DELETE`
the delete for that id, whose text carries the minus sign; any other method is
answered 405 without a store call.  Every negative `int` written in decimal
is such a segment. -/
theorem negative_id_accepted (g : Globals) (method seg : String) (body : RequestBody)
    (id : Int) (hid : Atoi seg = some id) (hneg : id < 0) :
    (postHandler g ⟨method, "/posts/" ++ seg, body⟩ St.init).st.w.status ≠ some 400 ∧
    (method = "GET" →
      storeSQL (postHandler g ⟨method, "/posts/" ++ seg, body⟩ St.init).st.events
        = [selectSQL id]) ∧
    (method = "DELETE" →
      storeSQL (postHandler g ⟨method, "/posts/" ++ seg, body⟩ St.init).st.events
        = [deleteSQL id]) ∧
    (method ≠ "GET" → method ≠ "DELETE" →
      (postHandler g ⟨method, "/posts/" ++ seg, body⟩ St.init).st.w.status = some 405 ∧
      storeSQL (postHandler g ⟨method, "/posts/" ++ seg, body⟩ St.init).st.events = []) ∧
    fmtInt id = "-" ++ Nat.repr id.natAbs ∧
    (-(2 : Int) ^ 63 ≤ id → Atoi (fmtInt id) = some id) := by
  rw [postHandler_route, hid]
  refine ⟨?_, ?_, ?_, ?_, ?_, Atoi_fmtInt_neg id hneg⟩
  · by_cases hg : method = "GET"
    · simp only [hg, if_true]
      unfold handleGetPost getPostById
      cases hs : (g.db.QueryRow (selectSQL id)).err <;>
        simp [hs, Ret.st, encodeTo, httpError, St.emit, St.init, ResponseWriter.fresh,
          ResponseWriter.WriteHeader, ResponseWriter.Write, ResponseWriter.SetHeader]
    · by_cases hd : method = "DELETE"
      · simp only [hg, hd, if_false, if_true]
        unfold handleDeletePost deletePostById
        cases hex : g.db.Exec (deleteSQL id) with
        | none =>
          simp [Ret.st, httpError, St.emit, St.init, ResponseWriter.fresh,
            ResponseWriter.WriteHeader, ResponseWriter.Write, ResponseWriter.SetHeader]
        | some result =>
          cases hr : result.RowsAffected.2 <;> by_cases hz : result.RowsAffected.1 = 0 <;>
            simp [hr, hz, Ret.st, httpError, St.emit, St.init, ResponseWriter.fresh,
              ResponseWriter.WriteHeader, ResponseWriter.Write, ResponseWriter.SetHeader]
      · simp only [hg, hd, if_false]
        simp [Ret.st, httpError, St.init, ResponseWriter.fresh,
          ResponseWriter.WriteHeader, ResponseWriter.Write, ResponseWriter.SetHeader]
  · intro hg
    simp only [hg, if_true]
    unfold handleGetPost getPostById
    simp only [Ret.st, encodeTo_events, emit_events, storeSQL_append, storeSQL_httpError_if,
      storeSQL, St.init, List.nil_append, List.append_nil]
  · intro hd
    have hg : ¬ ("DELETE" = "GET") := by decide
    simp only [hd, hg, if_false, if_true]
    unfold handleDeletePost deletePostById
    cases hex : g.db.Exec (deleteSQL id) with
    | none =>
      simp only [Ret.st, httpError_events, emit_events, storeSQL_append, storeSQL, St.init,
        List.nil_append, List.append_nil]
    | some result =>
      by_cases hz : result.RowsAffected.1 = 0
      · simp only [hz, if_true, Ret.st, httpError_events, emit_events, storeSQL_append,
          storeSQL_httpError_if, storeSQL, St.init, List.nil_append, List.append_nil]
      · simp only [hz, if_false, Ret.st, httpError_events, emit_events, storeSQL_append,
          storeSQL_httpError_if, storeSQL, St.init, List.nil_append, List.append_nil]
  · intro hg hd
    simp only [hg, hd, if_false]
    exact ⟨rfl, rfl⟩
  · match id, hneg with
    | .negSucc m, _ => rfl

/-- The theorem for C9 (amended) at `DELETE` with id segment `-1`. -/
theorem negative_id_accepted_witness :
    Atoi "-1" = some (-1) ∧ (-1 : Int) < 0 ∧
    storeSQL (postHandler ⟨okDB, none⟩ ⟨"DELETE", "/posts/" ++ "-1", badBody⟩
      St.init).st.events = [deleteSQL (-1)] :=
  ⟨by decide, by decide,
   (negative_id_accepted ⟨okDB, none⟩ "DELETE" "-1" badBody (-1) (by decide)
      (by decide)).2.2.1 rfl⟩

end GoHttpLibsql
